import Mathlib

/-!
Verification of the SaviourAI audio-capture / transcription / AI-response
pipeline.  The definitions below are a shallow embedding of the Python
sources (`ai_handler.py`, `audio_manager.py`, `transcriber.py`, `main.py`,
`config.py`): pure computations become Lean functions, stateful methods
become explicit state-passing functions, and the outcomes of network / OS
interactions (HTTP responses, subprocess results, device discovery) are
passed in as explicit environment values.  Machine floats of the source are
modelled as exact rationals; int16 overflow in `numpy` squaring is modelled
explicitly.
-/

namespace SaviourAI

/-! ### Configuration constants (config.py) -/

/-- `AIConfig.PRIMARY_MODEL` (config.py). -/
def PRIMARY_MODEL : String := "openai/gpt-4-turbo"

/-- `AIConfig.FALLBACK_MODEL` (config.py). -/
def FALLBACK_MODEL : String := "openai/gpt-3.5-turbo"

/-- `AudioConfig.SAMPLE_RATE` (config.py). -/
def SAMPLE_RATE : ℕ := 16000

/-- `AudioConfig.SILENCE_THRESHOLD = 0.01` (config.py). -/
def SILENCE_THRESHOLD : ℚ := 1 / 100

/-- The ring buffer capacity: `deque(maxlen=int(SAMPLE_RATE * 30))`
(audio_manager.py line 19), thirty seconds of audio. -/
def BUFFER_CAPACITY : ℕ := SAMPLE_RATE * 30

/-! ### Python string primitives

Python's `str.lower`, `str.strip` and `str.split` are modelled on the
character list underlying the string, with structural recursion. -/

/-- Python `str.lower()` (for the ASCII strings this program handles). -/
def pyLower (cs : List Char) : List Char := cs.map Char.toLower

/-- Python `str.strip()`: drop leading and trailing whitespace. -/
def pyStrip (cs : List Char) : List Char :=
  ((cs.dropWhile Char.isWhitespace).reverse.dropWhile Char.isWhitespace).reverse

/-- Helper for `pySplitWs`: accumulate the current word (reversed). -/
def splitWsAux : List Char → List Char → List (List Char)
  | [], acc => if acc.isEmpty then [] else [acc.reverse]
  | c :: cs, acc =>
    if c.isWhitespace then
      if acc.isEmpty then splitWsAux cs [] else acc.reverse :: splitWsAux cs []
    else splitWsAux cs (c :: acc)

/-- Python `str.split()` with no argument: split on runs of whitespace,
producing no empty words. -/
def pySplitWs (cs : List Char) : List (List Char) := splitWsAux cs []

/-- Python `str.strip()` as a `String` to `String` function. -/
def pyStripStr (s : String) : String := ⟨pyStrip s.data⟩

/-! ### AI response handler (ai_handler.py) -/

/-- The stop-word list of `_get_cache_key` (ai_handler.py line 158). -/
def wordsToRemove : List String :=
  ["can", "you", "please", "what", "is", "the", "how", "do", "does"]

/-- `AIResponseHandler._get_cache_key` (ai_handler.py lines 153-161):
lower-case and trim the question, split on whitespace, drop stop words and
words of length at most 2, join the first five remaining words with `_`,
and prepend the context. -/
def getCacheKey (question context : String) : String :=
  let normalized := pyStrip (pyLower question.data)
  let words := pySplitWs normalized
  let keyWords :=
    words.filter
      (fun w => ¬ wordsToRemove.contains (String.mk w) ∧ w.length > 2)
  ⟨context.data ++ ':' :: List.intercalate ['_'] (keyWords.take 5)⟩

/-- The response cache `self.response_cache`: a Python `dict` from cache key
to `(response, model_used)`, modelled as an insertion-ordered association
list with unique keys (Python dicts preserve insertion order). -/
abbrev Cache := List (String × String × String)

/-- The keys of the cache in insertion order (`list(dict.keys())`). -/
def cacheKeys (c : Cache) : List String := c.map (fun e => e.1)

/-- `AIResponseHandler._get_cached_response` (ai_handler.py lines 163-166):
`dict.get`, i.e. lookup by key. -/
def cacheLookup (c : Cache) (key : String) : Option (String × String) :=
  match c.find? (fun e => e.1 = key) with
  | some e => some e.2
  | none => none

/-- Python dict assignment `d[key] = v`: overwrite in place if the key is
present (keeping its position), otherwise append at the end. -/
def dictInsert (c : Cache) (key : String) (v : String × String) : Cache :=
  if c.any (fun e => e.1 = key) then
    c.map (fun e => if e.1 = key then (key, v.1, v.2) else e)
  else
    c ++ [(key, v.1, v.2)]

/-- `AIResponseHandler._cache_response` (ai_handler.py lines 168-178): if the
cache currently holds more than 50 entries, delete the first 10 keys in
insertion order, then insert the new entry. -/
def cache_response (c : Cache) (key : String) (v : String × String) : Cache :=
  dictInsert (if c.length > 50 then c.drop 10 else c) key v

/-- Outcome of one HTTP POST to the chat-completion endpoint, as observed by
`_try_model`: a response with a status code and the list of message contents
of its `choices` (empty when `"choices"` is missing or empty), a timeout, a
transport-level request exception, or any other exception (e.g. malformed
JSON). -/
inductive HTTPOutcome where
  | response (status : ℕ) (choices : List String)
  | timeout
  | requestError
  | otherError
deriving Repr, DecidableEq

/-- `AIResponseHandler._try_model` (ai_handler.py lines 89-141), reduced to
its returned content: on HTTP 200 with a non-empty `choices`, the stripped
content of the first choice; on 200 with no choices, a non-200 status, a
timeout, or any exception, `None`. -/
def try_model : HTTPOutcome → Option String
  | .response status choices =>
      if status = 200 then
        match choices with
        | content :: _ => some (pyStripStr content)
        | [] => none
      else none
  | .timeout => none
  | .requestError => none
  | .otherError => none

/-- Python truthiness of the `Optional[str]` held in `response`: falsy when
`None` or the empty string (the `if not response` checks at ai_handler.py
lines 68 and 73). -/
def usable : Option String → Bool
  | none => false
  | some s => s != ""

/-- The fixed apology string of ai_handler.py line 74. -/
def APOLOGY : String :=
  "I\x27m having trouble processing that question right now. Could you please rephrase it?"

/-- Mutable state of `AIResponseHandler`: the response cache and the two
lifetime counters. -/
structure AIState where
  cache : Cache
  request_count : ℕ
  total_response_time : ℚ
deriving Repr, DecidableEq

/-- The fresh handler state built by `AIResponseHandler.__init__`. -/
def initialAIState : AIState := ⟨[], 0, 0⟩

/-- Environment of one `get_response` call: the outcome the primary model
transport would produce, the outcome the secondary transport would produce,
and the wall-clock time elapsed at the return point
(`time.time() - start_time`). -/
structure GetEnv where
  primary : HTTPOutcome
  secondary : HTTPOutcome
  elapsed : ℚ
deriving Repr, DecidableEq

/-- The `(response, model_used)` pair computed by the cache-miss path of
`get_response` (ai_handler.py lines 64-75): try the primary model; if its
content is falsy try the fallback model; if that is falsy too, the apology
with model id `"fallback"`. -/
def missAnswer (env : GetEnv) : String × String :=
  let r1 := try_model env.primary
  if usable r1 then
    (r1.getD "", PRIMARY_MODEL)
  else
    let r2 := try_model env.secondary
    if usable r2 then
      (r2.getD "", FALLBACK_MODEL)
    else
      (APOLOGY, "fallback")

/-- Number of `_try_model` invocations made by the cache-miss path: 1 when
the primary content is usable, 2 otherwise. -/
def missCalls (env : GetEnv) : ℕ :=
  if usable (try_model env.primary) then 1 else 2

/-- Result of a `get_response` call: the returned triple
`(response, model_used, response_time)`, the handler state after the call,
and (as ghost instrumentation for the proofs) how many `_try_model`
network attempts the call made. -/
structure GetResult where
  answer : String
  model_used : String
  response_time : ℚ
  state : AIState
  networkCalls : ℕ
deriving Repr, DecidableEq

/-- `AIResponseHandler.get_response` (ai_handler.py lines 50-87).  On a cache
hit, return the cached pair immediately: the lifetime counters are NOT
touched on this early return.  On a miss, run the primary/fallback/apology
chain, cache the result only when it is truthy and not the apology, and
bump `request_count` and `total_response_time`. -/
def get_response (s : AIState) (question context : String) (env : GetEnv) :
    GetResult :=
  match cacheLookup s.cache (getCacheKey question context) with
  | some cached => ⟨cached.1, cached.2, env.elapsed, s, 0⟩
  | none =>
    ⟨(missAnswer env).1, (missAnswer env).2, env.elapsed,
     { cache :=
         if (missAnswer env).1 ≠ "" ∧ (missAnswer env).2 ≠ "fallback" then
           cache_response s.cache (getCacheKey question context)
             ((missAnswer env).1, (missAnswer env).2)
         else s.cache,
       request_count := s.request_count + 1,
       total_response_time := s.total_response_time + env.elapsed },
     missCalls env⟩

/-- Python `round(x, 2)` rounds half to even.  `roundHalfEven q` is the
integer nearest to `q`, ties going to the even integer. -/
def roundHalfEven (q : ℚ) : ℤ :=
  let f := ⌊q⌋
  let r := q - f
  if r < 1 / 2 then f
  else if 1 / 2 < r then f + 1
  else if Even f then f else f + 1

/-- Python `round(x, 2)`: round to two decimal places, half to even. -/
def round2 (q : ℚ) : ℚ := (roundHalfEven (q * 100) : ℚ) / 100

/-- The dictionary returned by `AIResponseHandler.get_stats`. -/
structure Stats where
  total_requests : ℕ
  avg_response_time : ℚ
  cache_size : ℕ
  cache_hit_rate : ℚ
deriving Repr, DecidableEq

/-- `AIResponseHandler.get_stats` (ai_handler.py lines 180-190): average
response time is `total / count` when `count > 0` and `0` otherwise, rounded
to two decimals; the hit rate is the constant 0. -/
def get_stats (s : AIState) : Stats :=
  let avg : ℚ :=
    if s.request_count > 0 then s.total_response_time / s.request_count else 0
  ⟨s.request_count, round2 avg, s.cache.length, 0⟩

/-! ### Audio manager (audio_manager.py) -/

/-- Python `int()` applied to a float: truncation toward zero
(`samples_needed = int(CONFIG.audio.SAMPLE_RATE * duration)`,
audio_manager.py line 91). -/
def pyInt (q : ℚ) : ℤ := if q < 0 then ⌈q⌉ else ⌊q⌋

/-- Python list slice `l[-n:]` for an integer `n` (audio_manager.py line
97): for `n > 0` the last `min n (length l)` elements, for `n = 0` the whole
list (since `l[-0:]` is `l[0:]`), and for `n < 0` the list with its first
`-n` elements dropped. -/
def pyTailSlice (l : List ℤ) (n : ℤ) : List ℤ :=
  if 0 < n then l.drop (l.length - n.toNat)
  else if n = 0 then l
  else l.drop (-n).toNat

/-- Wrap an integer into the signed 16-bit range, as numpy does when
squaring an `int16` array in place (`chunk**2` at audio_manager.py line 100
overflows for samples of magnitude above 181). -/
def int16wrap (x : ℤ) : ℤ := (x + 32768) % 65536 - 32768

/-- The sum of the int16-wrapped squares of the chunk: the exact value of
`np.sum(chunk**2)` for an `int16` array `chunk` (numpy computes the mean of
the wrapped squares in float64, which is exact at these magnitudes). -/
def sumSq16 (chunk : List ℤ) : ℤ :=
  (chunk.map (fun s => int16wrap (s * s))).sum

/-- The sum of the mathematical squares of the chunk (no wraparound), used
to state "true RMS" properties. -/
def sumSqTrue (chunk : List ℤ) : ℤ :=
  (chunk.map (fun s => s * s)).sum

/-- The silence gate of `get_audio_chunk` (audio_manager.py lines 100-102):
the code returns `None` when `np.sqrt(np.mean(chunk**2)) < SILENCE_THRESHOLD`.
For a nonnegative mean, `sqrt(mean) < t` with `t = 1/100 > 0` is equivalent
to `mean < t^2 = 1/10000`, i.e. — clearing the denominator — to
`sum * 10000 < length`.  When the wrapped mean is negative (possible
through int16 overflow) `np.sqrt` yields NaN, every comparison with NaN is
false, and the gate does not fire — hence the `0 ≤ sumSq16` conjunct.  An
empty chunk gives NaN as well (mean of an empty array), which the second
conjunct likewise makes false.  (The float64 computation is exact enough
here: values are far from the comparison boundary, see
`isSilent_iff_rat`.) -/
def isSilent (chunk : List ℤ) : Bool :=
  0 ≤ sumSq16 chunk ∧ sumSq16 chunk * 10000 < (chunk.length : ℤ)

/-- `AudioManager.get_audio_chunk` (audio_manager.py lines 89-106), acting
on the buffer contents (most recent sample last): compute
`samples_needed = int(SAMPLE_RATE * duration)`; return `None` when the
buffer holds fewer samples; slice the most recent samples; return `None`
when the silence gate fires; otherwise divide every sample by 32768 (the
`astype(np.float32) / 32768.0` normalization is exact in float32 for int16
samples, so exact rational division is faithful). -/
def get_audio_chunk (buffer : List ℤ) (duration : ℚ) : Option (List ℚ) :=
  if (buffer.length : ℤ) < pyInt (SAMPLE_RATE * duration) then none
  else if isSilent (pyTailSlice buffer (pyInt (SAMPLE_RATE * duration))) then
    none
  else
    some ((pyTailSlice buffer (pyInt (SAMPLE_RATE * duration))).map
      (fun s : ℤ => (s : ℚ) / 32768))

/-- Mutable state of `AudioManager`: whether a stream object is open, the
chosen device index, the recording flag, the registered callbacks (by id),
and the ring buffer contents. -/
structure AudioManagerState where
  stream_open : Bool
  device_index : Option ℕ
  is_recording : Bool
  callbacks : List ℕ
  audio_buffer : List ℤ
deriving Repr, DecidableEq

/-- `AudioManager.get_audio_chunk` as a method on the manager state.  The
method body only reads `self.audio_buffer` (it copies it with
`list(self.audio_buffer)`) and assigns no attribute, so the state after the
call is the state before it. -/
def get_audio_chunk_m (s : AudioManagerState) (duration : ℚ) :
    Option (List ℚ) × AudioManagerState :=
  (get_audio_chunk s.audio_buffer duration, s)

/-- Environment of one `start_recording` call: the result
`find_virtual_audio_device` would return, and whether
`self.audio.open(...)` together with `stream.start_stream()` succeeds
(their failure modes are collapsed into one flag; on failure the `except`
branch returns `False`). -/
structure StartEnv where
  found_device : Option ℕ
  open_ok : Bool
deriving Repr, DecidableEq

/-- Result of `start_recording`: the returned boolean, the state after the
call, and (ghost instrumentation) whether a device search was performed and
whether a stream open was attempted. -/
structure StartResult where
  ok : Bool
  state : AudioManagerState
  searched_device : Bool
  opened_stream : Bool
deriving Repr, DecidableEq

/-- `AudioManager.start_recording` (audio_manager.py lines 47-77): when
already recording, return `False` at once, before the device search and
before any attribute is assigned.  Otherwise store the device search
result in `self.device_index`; fail if it is `None`; open the stream; on
success append the callback, set the recording flag and return `True`; on
an open failure return `False`. -/
def start_recording (s : AudioManagerState) (env : StartEnv) (callback : ℕ) :
    StartResult :=
  if s.is_recording then
    ⟨false, s, false, false⟩
  else
    let s1 := { s with device_index := env.found_device }
    match env.found_device with
    | none => ⟨false, s1, true, false⟩
    | some _ =>
      if env.open_ok then
        ⟨true,
         { s1 with stream_open := true,
                   callbacks := s1.callbacks ++ [callback],
                   is_recording := true },
         true, true⟩
      else
        ⟨false, s1, true, true⟩

/-! ### Transcriber (transcriber.py) -/

/-- Outcome of invoking the local whisper model inside
`_transcribe_with_whisper_python`: either a result dictionary carrying a
`"text"` value and per-segment `avg_logprob` values (`none` for a segment
missing that key), or an exception anywhere in the `try` body. -/
inductive PyWhisperOutcome where
  | ok (text : String) (segments : List (Option ℚ))
  | raises
deriving Repr, DecidableEq

/-- Outcome of the whisper.cpp subprocess inside
`_transcribe_with_whisper_cpp`: a completed process with a return code and
standard output, a `subprocess.TimeoutExpired`, or any other exception in
the `try` body (temp-file writing included). -/
inductive SubprocOutcome where
  | completed (returncode : ℤ) (stdout : String)
  | timeout
  | raises
deriving Repr, DecidableEq

/-- `WhisperTranscriber._calculate_confidence` (transcriber.py lines
172-184): 0 for an empty segment list; otherwise the mean of
`min(1, max(0, avg_logprob + 1))` over the segments carrying an
`avg_logprob` key, or 0 when none does. -/
def calculate_confidence (segments : List (Option ℚ)) : ℚ :=
  if segments.isEmpty then 0
  else
    let confidences :=
      (segments.filterMap id).map (fun lp => min 1 (max 0 (lp + 1)))
    if confidences.isEmpty then 0
    else confidences.sum / confidences.length

/-- `WhisperTranscriber._transcribe_with_whisper_python` (transcriber.py
lines 83-115): the stripped text and the segment confidence on success,
`("", 0.0)` on any exception. -/
def transcribe_with_whisper_python (out : PyWhisperOutcome) : String × ℚ :=
  match out with
  | .ok text segments => (pyStripStr text, calculate_confidence segments)
  | .raises => ("", 0)

/-- `WhisperTranscriber._transcribe_with_whisper_cpp` (transcriber.py lines
117-170): on exit code 0 the stripped standard output with fixed confidence
0.8; on a non-zero exit code, a timeout, or any exception, `("", 0.0)`. -/
def transcribe_with_whisper_cpp (out : SubprocOutcome) : String × ℚ :=
  match out with
  | .completed returncode stdout =>
      if returncode = 0 then (pyStripStr stdout, 8 / 10) else ("", 0)
  | .timeout => ("", 0)
  | .raises => ("", 0)

/-- Engine-availability state of `WhisperTranscriber`: whether the local
model loaded (`model_loaded and self.model`), and whether a whisper.cpp
path was found (`self.whisper_cpp_path` truthy). -/
structure TranscriberState where
  model_loaded : Bool
  has_whisper_cpp : Bool
deriving Repr, DecidableEq

/-- `WhisperTranscriber.transcribe_audio` (transcriber.py lines 67-81):
dispatch to the loaded local model, else to whisper.cpp, else return the
sentinel `("", 0.0)`. -/
def transcribe_audio (s : TranscriberState) (pyOut : PyWhisperOutcome)
    (cppOut : SubprocOutcome) : String × ℚ :=
  if s.model_loaded then transcribe_with_whisper_python pyOut
  else if s.has_whisper_cpp then transcribe_with_whisper_cpp cppOut
  else ("", 0)

/-! ### Orchestrator processing loop (main.py) -/

/-- The Qt signals the processing-loop body can emit
(`AudioProcessingThread`). -/
inductive OrchestratorEvent where
  | transcription_ready (text : String) (confidence : ℚ)
  | status_changed (status : String)
  | error_occurred (msg : String)
deriving Repr, DecidableEq

/-- Outcome of the `transcribe_audio` call inside the loop body: a returned
pair, or an exception caught by the surrounding `try`. -/
inductive TranscribeOutcome where
  | ok (text : String) (confidence : ℚ)
  | raises (msg : String)
deriving Repr, DecidableEq

/-- One iteration of the body of `AudioProcessingThread.run` (main.py lines
54-75), entered with `self.processing` false: if the extracted chunk is
present and non-empty, emit `"processing"`, transcribe, and emit
`transcription_ready` exactly when the transcript is truthy and its
stripped length exceeds 3; otherwise emit `"listening"`; an exception
emits `error_occurred`.  Returns the list of emitted signals. -/
def loopIteration (chunk : Option (List ℚ)) (tr : TranscribeOutcome) :
    List OrchestratorEvent :=
  match chunk with
  | none => []
  | some c =>
    if c.length > 0 then
      OrchestratorEvent.status_changed "processing" ::
        (match tr with
         | .ok t conf =>
             if t ≠ "" ∧ (pyStrip t.data).length > 3 then
               [OrchestratorEvent.transcription_ready t conf]
             else
               [OrchestratorEvent.status_changed "listening"]
         | .raises m =>
             [OrchestratorEvent.error_occurred ("Transcription error: " ++ m)])
    else []

/-- Whether an event is a `transcription_ready` (answer-triggering)
event. -/
def isTranscriptionReady : OrchestratorEvent → Bool
  | .transcription_ready _ _ => true
  | _ => false

/-- How many answer-triggering events a list of emitted signals holds. -/
def countTranscriptionReady (events : List OrchestratorEvent) : ℕ :=
  events.countP isTranscriptionReady

/-! ### Concrete call sequences used in the theorems -/

/-- A supply of questions with pairwise distinct cache keys:
`"qq0"`, `"qq1"`, ... -/
def qsDistinct (n : ℕ) : List String :=
  (List.range n).map (fun i => "qq" ++ toString i)

/-- The cache keys of the questions `qsDistinct 51` in context
`"general"`, as literal strings. -/
def keys51 : List String := ["general:qq0", "general:qq1", "general:qq2", "general:qq3", "general:qq4", "general:qq5", "general:qq6", "general:qq7", "general:qq8", "general:qq9", "general:qq10", "general:qq11", "general:qq12", "general:qq13", "general:qq14", "general:qq15", "general:qq16", "general:qq17", "general:qq18", "general:qq19", "general:qq20", "general:qq21", "general:qq22", "general:qq23", "general:qq24", "general:qq25", "general:qq26", "general:qq27", "general:qq28", "general:qq29", "general:qq30", "general:qq31", "general:qq32", "general:qq33", "general:qq34", "general:qq35", "general:qq36", "general:qq37", "general:qq38", "general:qq39", "general:qq40", "general:qq41", "general:qq42", "general:qq43", "general:qq44", "general:qq45", "general:qq46", "general:qq47", "general:qq48", "general:qq49", "general:qq50"]

/-- The cache keys of the questions `qsDistinct 52` in context
`"general"`, as literal strings. -/
def keys52 : List String := ["general:qq0", "general:qq1", "general:qq2", "general:qq3", "general:qq4", "general:qq5", "general:qq6", "general:qq7", "general:qq8", "general:qq9", "general:qq10", "general:qq11", "general:qq12", "general:qq13", "general:qq14", "general:qq15", "general:qq16", "general:qq17", "general:qq18", "general:qq19", "general:qq20", "general:qq21", "general:qq22", "general:qq23", "general:qq24", "general:qq25", "general:qq26", "general:qq27", "general:qq28", "general:qq29", "general:qq30", "general:qq31", "general:qq32", "general:qq33", "general:qq34", "general:qq35", "general:qq36", "general:qq37", "general:qq38", "general:qq39", "general:qq40", "general:qq41", "general:qq42", "general:qq43", "general:qq44", "general:qq45", "general:qq46", "general:qq47", "general:qq48", "general:qq49", "general:qq50", "general:qq51"]

/-- An environment in which the primary model answers `"ans"`. -/
def envPrimaryOK : GetEnv :=
  ⟨HTTPOutcome.response 200 ["ans"], HTTPOutcome.timeout, 0⟩

/-- An environment in which the primary transport returns HTTP 500 and the
secondary times out: both model calls fail. -/
def envBothFail : GetEnv :=
  ⟨HTTPOutcome.response 500 [], HTTPOutcome.timeout, 0⟩

/-- A sequence of `get_response` calls, each with its own question and
environment, threading the handler state. -/
def runCalls (s : AIState) (context : String) (calls : List (String × GetEnv)) :
    AIState :=
  calls.foldl (fun st qe => (get_response st qe.1 context qe.2).state) s

/-! ### Theorems -/

/-- C10: `get_stats` is total and never divides by zero: with a zero request
counter the average response time reported is 0; in every state the returned
record carries the request counter, the two-decimal-rounded average response
time, the current cache size, and a cache hit rate that is the constant 0. -/
theorem getStats_total_and_safe (s : AIState) :
    (get_stats s).total_requests = s.request_count ∧
    (get_stats s).cache_size = s.cache.length ∧
    (get_stats s).cache_hit_rate = 0 ∧
    (s.request_count = 0 → (get_stats s).avg_response_time = 0) ∧
    (0 < s.request_count →
      (get_stats s).avg_response_time =
        round2 (s.total_response_time / s.request_count)) := by
  refine ⟨rfl, rfl, rfl, ?_, ?_⟩
  · intro h
    simp only [get_stats, h]
    norm_num [round2, roundHalfEven]
  · intro h
    simp [get_stats, h]

/-- Witness for C10, at a state with zero requests and a state with four. -/
theorem getStats_total_and_safe_witness :
    (get_stats initialAIState).avg_response_time = 0 ∧
    (get_stats ⟨[], 4, 10⟩).avg_response_time =
      round2 ((10 : ℚ) / ((4 : ℕ) : ℚ)) :=
  ⟨(getStats_total_and_safe initialAIState).2.2.2.1 rfl,
   (getStats_total_and_safe ⟨[], 4, 10⟩).2.2.2.2 (by norm_num)⟩

/-- C9: calling `start_recording` while recording is in progress returns
`False` immediately and leaves the state untouched: no device search runs,
no stream open is attempted, and the stream, device index, recording flag,
callback list and buffer are unchanged. -/
theorem startRecording_noop_when_recording (s : AudioManagerState)
    (env : StartEnv) (callback : ℕ) (h : s.is_recording = true) :
    start_recording s env callback = ⟨false, s, false, false⟩ := by
  simp [start_recording, h]

/-- Witness for C9: a concrete manager state that is already recording. -/
theorem startRecording_noop_witness :
    start_recording ⟨true, some 0, true, [7], [1, 2]⟩ ⟨some 3, true⟩ 9 =
      ⟨false, ⟨true, some 0, true, [7], [1, 2]⟩, false, false⟩ :=
  startRecording_noop_when_recording _ _ _ rfl

/-- C8: `transcribe_audio` degrades every failure to the sentinel
`("", 0.0)`: an exception in the local-model path, an exception, a non-zero
exit code or a timeout in the subprocess path, and the absence of any
transcription engine all yield `("", 0.0)`; the function is total, so no
exception escapes to the caller. -/
theorem transcribe_failure_sentinel (s : TranscriberState)
    (pyOut : PyWhisperOutcome) (cppOut : SubprocOutcome)
    (h : (s.model_loaded = true ∧ pyOut = PyWhisperOutcome.raises) ∨
         (s.model_loaded = false ∧ s.has_whisper_cpp = true ∧
           (cppOut = SubprocOutcome.timeout ∨ cppOut = SubprocOutcome.raises ∨
             ∃ rc out, cppOut = SubprocOutcome.completed rc out ∧ rc ≠ 0)) ∨
         (s.model_loaded = false ∧ s.has_whisper_cpp = false)) :
    transcribe_audio s pyOut cppOut = ("", 0) := by
  rcases h with ⟨h1, h2⟩ | ⟨h1, h2, h3 | h3 | ⟨rc, out, h3, h4⟩⟩ | ⟨h1, h2⟩ <;>
    subst_vars <;>
    simp [transcribe_audio, transcribe_with_whisper_python,
      transcribe_with_whisper_cpp, *]

/-- Witness for C8: the local model is loaded and raises. -/
theorem transcribe_failure_sentinel_witness :
    transcribe_audio ⟨true, false⟩ PyWhisperOutcome.raises
      SubprocOutcome.timeout = ("", 0) :=
  transcribe_failure_sentinel _ _ _ (Or.inl ⟨rfl, rfl⟩)

/-- C7: in the orchestrator loop body, a successful transcription whose
stripped text has length at most 3 emits no `transcription_ready` event,
and one whose stripped text has length greater than 3 emits exactly one. -/
theorem loop_emits_iff_meaningful (c : List ℚ) (t : String) (confidence : ℚ)
    (hc : 0 < c.length) :
    countTranscriptionReady
        (loopIteration (some c) (TranscribeOutcome.ok t confidence)) =
      if 3 < (pyStrip t.data).length then 1 else 0 := by
  by_cases hlen : 3 < (pyStrip t.data).length
  · have ht : t ≠ "" := by
      intro h
      subst h
      simp [pyStrip] at hlen
    rw [if_pos hlen]
    simp [loopIteration, hc, ht, hlen, countTranscriptionReady,
      isTranscriptionReady]
  · rw [if_neg hlen]
    have hno : ¬ (t ≠ "" ∧ (pyStrip t.data).length > 3) := by tauto
    simp [loopIteration, hc, hno, countTranscriptionReady,
      isTranscriptionReady]

/-- Witness for C7: a long transcript emits exactly one event, a short one
emits none. -/
theorem loop_emits_iff_meaningful_witness :
    countTranscriptionReady
        (loopIteration (some [(1 : ℚ)]) (TranscribeOutcome.ok "hello" 0)) = 1 ∧
    countTranscriptionReady
        (loopIteration (some [(1 : ℚ)]) (TranscribeOutcome.ok " hi " 0)) = 0 := by
  constructor
  · rw [loop_emits_iff_meaningful [(1 : ℚ)] "hello" 0 (by decide)]
    decide
  · rw [loop_emits_iff_meaningful [(1 : ℚ)] " hi " 0 (by decide)]
    decide

/-! ### Cache helper lemmas -/

lemma cacheLookup_eq_none {c : Cache} {k : String} (h : k ∉ cacheKeys c) :
    cacheLookup c k = none := by
  have hf : c.find? (fun e => e.1 = k) = none := by
    rw [List.find?_eq_none]
    intro e he
    simp only [decide_eq_true_eq]
    intro hk
    exact h (by simpa [cacheKeys, hk] using
      List.mem_map_of_mem (fun e => e.1) he)
  simp [cacheLookup, hf]

lemma cacheLookup_mem {c : Cache} {k : String} {v : String × String}
    (h : cacheLookup c k = some v) : ∃ e ∈ c, e.2 = v := by
  unfold cacheLookup at h
  cases hf : c.find? (fun e => e.1 = k) with
  | none => rw [hf] at h; cases h
  | some e =>
    rw [hf] at h
    cases h
    exact ⟨e, List.mem_of_find?_eq_some hf, rfl⟩

lemma dictInsert_of_not_mem {c : Cache} {k : String} (v : String × String)
    (h : k ∉ cacheKeys c) : dictInsert c k v = c ++ [(k, v.1, v.2)] := by
  unfold dictInsert
  rw [if_neg]
  intro hany
  rcases List.any_eq_true.mp hany with ⟨e, he, hk⟩
  exact h (by
    simp only [decide_eq_true_eq] at hk
    simpa [cacheKeys, hk] using List.mem_map_of_mem (fun e => e.1) he)

lemma cache_response_no_evict {c : Cache} {k : String} (v : String × String)
    (hlen : c.length ≤ 50) : cache_response c k v = dictInsert c k v := by
  unfold cache_response
  rw [if_neg (by omega)]

lemma usable_getD_ne {r : Option String} (h : usable r = true) :
    r.getD "" ≠ "" := by
  cases r with
  | none => simp [usable] at h
  | some s => simpa [usable] using h

lemma missAnswer_fst_ne_empty {env : GetEnv}
    (h : (missAnswer env).2 ≠ "fallback") : (missAnswer env).1 ≠ "" := by
  unfold missAnswer at *
  by_cases h1 : usable (try_model env.primary)
  · simpa [h1] using usable_getD_ne h1
  · by_cases h2 : usable (try_model env.secondary)
    · simpa [h1, h2] using usable_getD_ne h2
    · simp [h1, h2] at h

/-- Unfolding of `get_response` on a cache miss. -/
lemma get_response_miss {s : AIState} {q ctx : String} (env : GetEnv)
    (h : cacheLookup s.cache (getCacheKey q ctx) = none) :
    get_response s q ctx env =
      ⟨(missAnswer env).1, (missAnswer env).2, env.elapsed,
       { cache :=
           if (missAnswer env).1 ≠ "" ∧ (missAnswer env).2 ≠ "fallback" then
             cache_response s.cache (getCacheKey q ctx)
               ((missAnswer env).1, (missAnswer env).2)
           else s.cache,
         request_count := s.request_count + 1,
         total_response_time := s.total_response_time + env.elapsed },
       missCalls env⟩ := by
  unfold get_response
  rw [h]

/-! ### Claims C2, C3, C4 -/

/-- C2 (amended): on a cache miss, `get_response` increments the lifetime
request counter by exactly 1 and adds the call's elapsed time to the
cumulative response-time counter; on a cache hit it returns the cached pair
and leaves the whole handler state — both counters included — unchanged. -/
theorem counters_update_on_miss (s : AIState) (q ctx : String) (env : GetEnv) :
    (cacheLookup s.cache (getCacheKey q ctx) = none →
       (get_response s q ctx env).state.request_count = s.request_count + 1 ∧
       (get_response s q ctx env).state.total_response_time =
         s.total_response_time + env.elapsed ∧
       (get_response s q ctx env).response_time = env.elapsed) ∧
    (∀ v, cacheLookup s.cache (getCacheKey q ctx) = some v →
       (get_response s q ctx env).state = s ∧
       (get_response s q ctx env).answer = v.1 ∧
       (get_response s q ctx env).model_used = v.2) := by
  constructor
  · intro h
    rw [get_response_miss env h]
    exact ⟨rfl, rfl, rfl⟩
  · intro v h
    unfold get_response
    rw [h]
    exact ⟨rfl, rfl, rfl⟩

/-- Counterexample to C2 as stated: after a first call answers `"qq0"` from
the primary model (bringing the request counter to 1), a second call with
the same question is a cache hit and leaves the counter at 1, where the
claim demands it increase to 2. -/
theorem counters_claim_cex :
    (get_response initialAIState "qq0" "general" envPrimaryOK).state.request_count
        = 1 ∧
    (get_response
        (get_response initialAIState "qq0" "general" envPrimaryOK).state
        "qq0" "general" envPrimaryOK).state.request_count = 1 := by
  decide

/-- Witness for C2 (amended): a concrete miss call and a concrete hit
call. -/
theorem counters_update_on_miss_witness :
    (get_response initialAIState "qq0" "general" envPrimaryOK).state.request_count
        = 0 + 1 ∧
    (get_response ⟨[("general:qq0", "ans", "m")], 3, 7⟩ "qq0" "general"
        envPrimaryOK).state = ⟨[("general:qq0", "ans", "m")], 3, 7⟩ :=
  ⟨((counters_update_on_miss initialAIState "qq0" "general"
      envPrimaryOK).1 (by decide)).1,
   ((counters_update_on_miss ⟨[("general:qq0", "ans", "m")], 3, 7⟩ "qq0"
      "general" envPrimaryOK).2 ("ans", "m") (by decide)).1⟩

/-- C3: when both model calls fail to yield usable content, `get_response`
returns the fixed apology with model id `"fallback"`, the cache is left
unchanged (the apology is never cached), and a later call with the same
question still makes at least one network attempt; moreover, whenever every
cached answer is non-empty, `get_response` returns a non-empty answer (and,
being a total function, it never raises). -/
theorem total_failure_apology (s : AIState) (q ctx : String)
    (env env2 : GetEnv) :
    (cacheLookup s.cache (getCacheKey q ctx) = none →
     usable (try_model env.primary) = false →
     usable (try_model env.secondary) = false →
       (get_response s q ctx env).answer = APOLOGY ∧
       (get_response s q ctx env).model_used = "fallback" ∧
       (get_response s q ctx env).state.cache = s.cache ∧
       1 ≤ (get_response (get_response s q ctx env).state q ctx
              env2).networkCalls) ∧
    ((∀ e ∈ s.cache, e.2.1 ≠ "") → (get_response s q ctx env).answer ≠ "") := by
  constructor
  · intro hmiss h1 h2
    have hma : missAnswer env = (APOLOGY, "fallback") := by
      unfold missAnswer
      simp [h1, h2]
    have hr := get_response_miss env hmiss
    have hcache : (get_response s q ctx env).state.cache = s.cache := by
      rw [hr, hma]
      simp
    refine ⟨by rw [hr, hma], by rw [hr, hma], hcache, ?_⟩
    have hmiss2 :
        cacheLookup (get_response s q ctx env).state.cache
          (getCacheKey q ctx) = none := by
      rw [hcache]; exact hmiss
    have hr2 := @get_response_miss ((get_response s q ctx env).state) q ctx
      env2 hmiss2
    rw [hr2]
    show 1 ≤ missCalls env2
    unfold missCalls
    split <;> omega
  · intro hcachene
    cases hlook : cacheLookup s.cache (getCacheKey q ctx) with
    | some v =>
      obtain ⟨e, he, hev⟩ := cacheLookup_mem hlook
      have hv : (get_response s q ctx env).answer = v.1 := by
        unfold get_response
        rw [hlook]
      rw [hv, ← hev]
      exact hcachene e he
    | none =>
      rw [get_response_miss env hlook]
      unfold missAnswer
      by_cases h1 : usable (try_model env.primary)
      · simpa [h1] using usable_getD_ne h1
      · by_cases h2 : usable (try_model env.secondary)
        · simpa [h1, h2] using usable_getD_ne h2
        · simp [h1, h2, APOLOGY]

/-- Witness for C3: both transports fail on an empty cache. -/
theorem total_failure_apology_witness :
    (get_response initialAIState "qq0" "general" envBothFail).answer =
        APOLOGY ∧
    (get_response initialAIState "qq0" "general"
        envBothFail).model_used = "fallback" ∧
    (get_response initialAIState "qq0" "general" envBothFail).state.cache =
        initialAIState.cache ∧
    (get_response initialAIState "qq0" "general" envBothFail).answer ≠ "" := by
  have h := (total_failure_apology initialAIState "qq0" "general" envBothFail
    envBothFail).1 (by decide) (by decide) (by decide)
  have h2 := (total_failure_apology initialAIState "qq0" "general" envBothFail
    envBothFail).2 (by simp [initialAIState])
  exact ⟨h.1, h.2.1, h.2.2.1, h2⟩

/-- C4: on a cache miss the secondary model is consulted exactly when the
primary fails to yield usable content — one network attempt when the
primary content is usable (and the answer is the primary's), two otherwise;
in particular, a primary HTTP 500 followed by a secondary HTTP 200 with
content `"X"` yields answer `"X"` with the secondary model's id. -/
theorem fallback_ordering (s : AIState) (q ctx : String) (env : GetEnv)
    (hmiss : cacheLookup s.cache (getCacheKey q ctx) = none) :
    (usable (try_model env.primary) = true →
       (get_response s q ctx env).networkCalls = 1 ∧
       (get_response s q ctx env).answer = (try_model env.primary).getD "" ∧
       (get_response s q ctx env).model_used = PRIMARY_MODEL) ∧
    (usable (try_model env.primary) = false →
       (get_response s q ctx env).networkCalls = 2) ∧
    (∀ choices, env.primary = HTTPOutcome.response 500 choices →
       env.secondary = HTTPOutcome.response 200 ["X"] →
       (get_response s q ctx env).answer = "X" ∧
       (get_response s q ctx env).model_used = FALLBACK_MODEL) := by
  rw [get_response_miss env hmiss]
  refine ⟨?_, ?_, ?_⟩
  · intro h
    unfold missAnswer missCalls
    simp [h]
  · intro h
    unfold missCalls
    simp [h]
  · intro choices hp hs
    have h1 : try_model env.primary = none := by
      rw [hp]; simp [try_model]
    have h2 : try_model env.secondary = some "X" := by
      rw [hs]; decide
    unfold missAnswer
    rw [h1, h2]
    simp [usable]

/-- Witness for C4: primary HTTP 500, secondary HTTP 200 with `"X"`. -/
theorem fallback_ordering_witness :
    (get_response initialAIState "qq0" "general"
        ⟨HTTPOutcome.response 500 [], HTTPOutcome.response 200 ["X"], 0⟩).answer
        = "X" ∧
    (get_response initialAIState "qq0" "general"
        ⟨HTTPOutcome.response 500 [], HTTPOutcome.response 200 ["X"],
          0⟩).model_used = FALLBACK_MODEL :=
  (fallback_ordering initialAIState "qq0" "general"
    ⟨HTTPOutcome.response 500 [], HTTPOutcome.response 200 ["X"], 0⟩
    (by decide)).2.2 [] rfl rfl

/-! ### Audio helper lemmas -/

/-- Evaluation rule for `pyInt` (Python `int()`) from rational bounds. -/
lemma pyInt_eq_of_bounds {q : ℚ} {n : ℤ} (h0 : 0 ≤ n) (h1 : (n : ℚ) ≤ q)
    (h2 : q < (n : ℚ) + 1) : pyInt q = n := by
  unfold pyInt
  rw [if_neg (not_lt.mpr (le_trans (by exact_mod_cast h0) h1))]
  exact Int.floor_eq_iff.mpr ⟨h1, h2⟩

/-- The integer silence test is the source's rational statement
`mean(chunk**2) < SILENCE_THRESHOLD ^ 2` with the denominator cleared. -/
lemma isSilent_iff_rat (chunk : List ℤ) :
    isSilent chunk = true ↔
      0 ≤ sumSq16 chunk ∧
        (sumSq16 chunk : ℚ) < SILENCE_THRESHOLD ^ 2 * chunk.length := by
  simp only [isSilent, Bool.and_eq_true, decide_eq_true_eq]
  have hthr : SILENCE_THRESHOLD ^ 2 = (1 : ℚ) / 10000 := by
    norm_num [SILENCE_THRESHOLD]
  constructor
  · rintro ⟨ha, hb⟩
    refine ⟨ha, ?_⟩
    have hq : (sumSq16 chunk : ℚ) * 10000 < chunk.length := by exact_mod_cast hb
    rw [hthr]
    linarith
  · rintro ⟨ha, hb⟩
    refine ⟨ha, ?_⟩
    rw [hthr] at hb
    have hq : (sumSq16 chunk : ℚ) * 10000 < chunk.length := by linarith
    exact_mod_cast hq

lemma int16wrap_eq_self {x : ℤ} (h1 : -32768 ≤ x) (h2 : x < 32768) :
    int16wrap x = x := by
  unfold int16wrap
  rw [Int.emod_eq_of_lt (by omega) (by omega)]
  omega

lemma sumSqTrue_nonneg (chunk : List ℤ) : 0 ≤ sumSqTrue chunk := by
  unfold sumSqTrue
  apply List.sum_nonneg
  intro x hx
  obtain ⟨y, _, rfl⟩ := List.mem_map.mp hx
  exact mul_self_nonneg y

lemma sq_le_sumSqTrue {chunk : List ℤ} {s : ℤ} (hs : s ∈ chunk) :
    s * s ≤ sumSqTrue chunk := by
  unfold sumSqTrue
  apply List.single_le_sum
  · intro x hx
    obtain ⟨y, _, rfl⟩ := List.mem_map.mp hx
    exact mul_self_nonneg y
  · exact List.mem_map_of_mem _ hs

lemma pyTailSlice_length_le (l : List ℤ) (n : ℤ) :
    (pyTailSlice l n).length ≤ l.length := by
  unfold pyTailSlice
  split
  · rw [List.length_drop]; omega
  · split
    · exact le_refl _
    · rw [List.length_drop]; omega

lemma pyTailSlice_subset (l : List ℤ) (n : ℤ) :
    ∀ x ∈ pyTailSlice l n, x ∈ l := by
  unfold pyTailSlice
  split
  · exact fun x hx => List.drop_subset _ _ hx
  · split
    · exact fun x hx => hx
    · exact fun x hx => List.drop_subset _ _ hx

/-- When the true mean square of the chunk is below the squared silence
threshold and the chunk is no longer than the ring buffer capacity, every
sample square is tiny (at most 47), so the int16 squaring does not wrap
and the silence gate fires. -/
lemma isSilent_of_true_quiet {chunk : List ℤ}
    (hcap : chunk.length ≤ BUFFER_CAPACITY)
    (h : (sumSqTrue chunk : ℚ) < SILENCE_THRESHOLD ^ 2 * chunk.length) :
    isSilent chunk = true := by
  have hthr : SILENCE_THRESHOLD ^ 2 = (1 : ℚ) / 10000 := by
    norm_num [SILENCE_THRESHOLD]
  have hZ : sumSqTrue chunk * 10000 < (chunk.length : ℤ) := by
    have h10 : (sumSqTrue chunk : ℚ) * 10000 < (chunk.length : ℚ) := by
      rw [hthr] at h
      linarith
    exact_mod_cast h10
  have hnn := sumSqTrue_nonneg chunk
  have hcap' : (chunk.length : ℤ) ≤ 480000 := by
    have : chunk.length ≤ 480000 := by
      simpa [BUFFER_CAPACITY, SAMPLE_RATE] using hcap
    exact_mod_cast this
  have hsmall : sumSqTrue chunk < 48 := by omega
  have hwrap : sumSq16 chunk = sumSqTrue chunk := by
    unfold sumSq16 sumSqTrue
    congr 1
    apply List.map_congr_left
    intro s hs
    have h1 : s * s ≤ sumSqTrue chunk := sq_le_sumSqTrue hs
    have h2 : 0 ≤ s * s := mul_self_nonneg s
    exact int16wrap_eq_self (by omega) (by omega)
  rw [isSilent_iff_rat, hwrap]
  exact ⟨hnn, h⟩

/-! ### Claims C5, C6 -/

/-- C5 (amended): `get_audio_chunk` returns nothing whenever the ring
buffer holds fewer than `int(sampleRate × durationSeconds)` samples (the
integer truncation the code computes), and returns nothing whenever the
selected most-recent samples have root-mean-square energy below the
configured silence threshold (stated squared: their true mean square is
below the squared threshold), provided the buffer is within its 30-second
capacity. -/
theorem extract_none_short_or_silent (buffer : List ℤ) (d : ℚ) :
    ((buffer.length : ℤ) < pyInt (SAMPLE_RATE * d) →
       get_audio_chunk buffer d = none) ∧
    (buffer.length ≤ BUFFER_CAPACITY →
     (sumSqTrue (pyTailSlice buffer (pyInt (SAMPLE_RATE * d))) : ℚ) <
        SILENCE_THRESHOLD ^ 2 *
          (pyTailSlice buffer (pyInt (SAMPLE_RATE * d))).length →
       get_audio_chunk buffer d = none) := by
  constructor
  · intro h
    unfold get_audio_chunk
    rw [if_pos h]
  · intro hcap h
    unfold get_audio_chunk
    by_cases hlen : (buffer.length : ℤ) < pyInt (SAMPLE_RATE * d)
    · rw [if_pos hlen]
    · rw [if_neg hlen]
      have hsil := isSilent_of_true_quiet
        (le_trans (pyTailSlice_length_le _ _) hcap) h
      rw [if_pos hsil]

/-- Counterexample to C5 as stated: with `duration = 3/32768` the buffer
`[1000]` holds 1 sample, fewer than `sampleRate × duration ≈ 1.46`, yet
`get_audio_chunk` returns a chunk, because the code truncates
`16000 × 3/32768` to 1. -/
theorem extract_short_buffer_cex :
    ((([1000] : List ℤ).length : ℚ) < (SAMPLE_RATE : ℚ) * (3 / 32768)) ∧
    get_audio_chunk [1000] (3 / 32768) ≠ none := by
  have hpy : pyInt ((SAMPLE_RATE : ℚ) * (3 / 32768)) = 1 :=
    pyInt_eq_of_bounds (by norm_num) (by norm_num [SAMPLE_RATE])
      (by norm_num [SAMPLE_RATE])
  constructor
  · norm_num [SAMPLE_RATE]
  · unfold get_audio_chunk
    rw [hpy]
    decide

/-- Witness for C5 (amended): a buffer shorter than one second returns
nothing for a one-second request, and an all-zero buffer returns nothing
even when enough samples are present. -/
theorem extract_none_short_or_silent_witness :
    get_audio_chunk [0, 0, 0] 1 = none ∧
    get_audio_chunk [0] (1 / 16000) = none := by
  have h1 : pyInt ((SAMPLE_RATE : ℚ) * 1) = 16000 :=
    pyInt_eq_of_bounds (by norm_num) (by norm_num [SAMPLE_RATE])
      (by norm_num [SAMPLE_RATE])
  have h2 : pyInt ((SAMPLE_RATE : ℚ) * (1 / 16000)) = 1 :=
    pyInt_eq_of_bounds (by norm_num) (by norm_num [SAMPLE_RATE])
      (by norm_num [SAMPLE_RATE])
  constructor
  · exact (extract_none_short_or_silent [0, 0, 0] 1).1 (by rw [h1]; decide)
  · refine (extract_none_short_or_silent [0] (1 / 16000)).2 (by decide) ?_
    have ht : pyTailSlice [0] (1 : ℤ) = [0] := by decide
    rw [h2, ht]
    have hs : sumSqTrue [0] = 0 := by decide
    rw [hs]
    norm_num [SILENCE_THRESHOLD]

/-- Counterexample to C6 as stated: for `duration = 0` (so `N = 0`), the
buffer `[1000]` holds at least 0 samples and the silence gate passes, but
`get_audio_chunk` does not return the most recent 0 samples — the Python
slice `lst[-0:]` is `lst[0:]`, so the whole buffer is returned. -/
theorem extract_zero_duration_cex :
    (SAMPLE_RATE : ℚ) * 0 = ((0 : ℕ) : ℚ) ∧
    isSilent (pyTailSlice [1000] (pyInt ((SAMPLE_RATE : ℚ) * 0))) = false ∧
    get_audio_chunk [1000] 0 ≠
      some ((([1000] : List ℤ).drop (([1000] : List ℤ).length - 0)).map
        (fun x : ℤ => (x : ℚ) / 32768)) := by
  have h0 : pyInt ((SAMPLE_RATE : ℚ) * 0) = 0 := by
    rw [mul_zero]
    unfold pyInt
    rw [if_neg (by norm_num)]
    exact Int.floor_zero
  refine ⟨by norm_num, ?_, ?_⟩
  · rw [h0]; decide
  · unfold get_audio_chunk
    rw [h0]
    decide

/-- C6 (amended): whenever `N = duration × sampleRate` is a positive whole
number, the buffer holds at least `N` valid int16 samples and the silence
gate passes, `get_audio_chunk` returns exactly the most recent `N` samples
each divided by 32768 — a list of length `N` with every element in
`[-1, 1]` — and the call leaves the manager state (the ring buffer in
particular) unchanged.  Positivity is needed: for `N = 0` the Python slice
`lst[-0:]` selects the whole buffer instead of nothing. -/
theorem extract_success_shape (s : AudioManagerState) (d : ℚ) (N : ℕ)
    (hN : (SAMPLE_RATE : ℚ) * d = N) (hpos : 1 ≤ N)
    (hlen : N ≤ s.audio_buffer.length)
    (hgate : isSilent (pyTailSlice s.audio_buffer
        (pyInt ((SAMPLE_RATE : ℚ) * d))) = false)
    (hvalid : ∀ x ∈ s.audio_buffer, -32768 ≤ x ∧ x ≤ 32767) :
    (get_audio_chunk_m s d).1 =
      some ((s.audio_buffer.drop (s.audio_buffer.length - N)).map
        (fun x : ℤ => (x : ℚ) / 32768)) ∧
    (∀ r, (get_audio_chunk_m s d).1 = some r →
       r.length = N ∧ ∀ y ∈ r, -1 ≤ y ∧ y ≤ 1) ∧
    (get_audio_chunk_m s d).2 = s := by
  have hpy : pyInt ((SAMPLE_RATE : ℚ) * d) = (N : ℤ) := by
    rw [hN]
    unfold pyInt
    rw [if_neg (not_lt.mpr (by positivity))]
    exact Int.floor_natCast N
  rw [hpy] at hgate
  have htail : pyTailSlice s.audio_buffer ((N : ℕ) : ℤ) =
      s.audio_buffer.drop (s.audio_buffer.length - N) := by
    unfold pyTailSlice
    rw [if_pos (by exact_mod_cast hpos)]
    rw [Int.toNat_natCast]
  have hnotlt : ¬ ((s.audio_buffer.length : ℤ) < ((N : ℕ) : ℤ)) := by
    exact_mod_cast not_lt.mpr hlen
  have hchunk : get_audio_chunk s.audio_buffer d =
      some ((s.audio_buffer.drop (s.audio_buffer.length - N)).map
        (fun x : ℤ => (x : ℚ) / 32768)) := by
    unfold get_audio_chunk
    rw [hpy, if_neg hnotlt, if_neg (by simp [hgate]), htail]
  refine ⟨hchunk, ?_, rfl⟩
  intro r hr
  rw [show (get_audio_chunk_m s d).1 = get_audio_chunk s.audio_buffer d
    from rfl, hchunk] at hr
  injection hr with hr
  subst hr
  constructor
  · rw [List.length_map, List.length_drop]
    omega
  · intro y hy
    obtain ⟨x, hx, rfl⟩ := List.mem_map.mp hy
    have hxb : x ∈ s.audio_buffer := List.drop_subset _ _ hx
    obtain ⟨hlo, hhi⟩ := hvalid x hxb
    have h32 : (0 : ℚ) < 32768 := by norm_num
    constructor
    · rw [le_div_iff₀ h32]
      have hq : (-32768 : ℚ) ≤ (x : ℚ) := by exact_mod_cast hlo
      linarith
    · rw [div_le_one h32]
      have hq : (x : ℚ) ≤ 32767 := by exact_mod_cast hhi
      linarith

/-- Witness for C6 (amended): one loud sample, duration `1/16000`. -/
theorem extract_success_shape_witness :
    (get_audio_chunk_m ⟨false, none, false, [], [1000]⟩ (1 / 16000)).1 =
      some ((([1000] : List ℤ).drop (([1000] : List ℤ).length - 1)).map
        (fun x : ℤ => (x : ℚ) / 32768)) :=
  (extract_success_shape ⟨false, none, false, [], [1000]⟩ (1 / 16000) 1
    (by norm_num [SAMPLE_RATE]) (le_refl 1) (by decide)
    (by
      rw [show pyInt ((SAMPLE_RATE : ℚ) * (1 / 16000)) = 1 from
        pyInt_eq_of_bounds (by norm_num) (by norm_num [SAMPLE_RATE])
          (by norm_num [SAMPLE_RATE])]
      decide)
    (by decide)).1

/-! ### Claim C1: cache growth and eviction -/

lemma cacheKeys_append (c : Cache) (e : String × String × String) :
    cacheKeys (c ++ [e]) = cacheKeys c ++ [e.1] := by
  simp [cacheKeys]

/-- One cache-miss call with a fresh key and a real answer while the cache
holds at most 50 entries appends the new entry. -/
lemma get_response_cache_append {s : AIState} {q ctx : String} {env : GetEnv}
    (hfresh : getCacheKey q ctx ∉ cacheKeys s.cache)
    (hreal : (missAnswer env).2 ≠ "fallback")
    (hlen : s.cache.length ≤ 50) :
    (get_response s q ctx env).state.cache =
      s.cache ++
        [(getCacheKey q ctx, (missAnswer env).1, (missAnswer env).2)] := by
  rw [get_response_miss env (cacheLookup_eq_none hfresh)]
  dsimp only
  rw [if_pos ⟨missAnswer_fst_ne_empty hreal, hreal⟩,
    cache_response_no_evict _ hlen]
  exact dictInsert_of_not_mem _ hfresh

/-- One cache-miss call with a fresh key and a real answer while the cache
holds more than 50 entries drops the 10 oldest entries and appends the new
one. -/
lemma get_response_cache_evict {s : AIState} {q ctx : String} {env : GetEnv}
    (hfresh : getCacheKey q ctx ∉ cacheKeys s.cache)
    (hreal : (missAnswer env).2 ≠ "fallback")
    (hlen : 50 < s.cache.length) :
    (get_response s q ctx env).state.cache =
      s.cache.drop 10 ++
        [(getCacheKey q ctx, (missAnswer env).1, (missAnswer env).2)] := by
  rw [get_response_miss env (cacheLookup_eq_none hfresh)]
  dsimp only
  rw [if_pos ⟨missAnswer_fst_ne_empty hreal, hreal⟩]
  unfold cache_response
  rw [if_pos hlen]
  apply dictInsert_of_not_mem
  intro hmem
  apply hfresh
  have hkeys : cacheKeys (s.cache.drop 10) = (cacheKeys s.cache).drop 10 := by
    simp [cacheKeys, List.map_drop]
  rw [hkeys] at hmem
  exact List.drop_subset _ _ hmem

set_option maxHeartbeats 1600000 in
/-- Folding `get_response` over calls whose cache keys are pairwise
distinct and absent from the cache, each answered by a real model, while
the cache stays within 51 entries: every call appends its entry in call
order. -/
lemma runCalls_cache_append (ctx : String) :
    ∀ (calls : List (String × GetEnv)) (s : AIState),
      ((calls.map (fun qe => getCacheKey qe.1 ctx)).Nodup) →
      (∀ qe ∈ calls, getCacheKey qe.1 ctx ∉ cacheKeys s.cache) →
      (∀ qe ∈ calls, (missAnswer qe.2).2 ≠ "fallback") →
      s.cache.length + calls.length ≤ 51 →
      (runCalls s ctx calls).cache =
        s.cache ++ calls.map (fun qe =>
          (getCacheKey qe.1 ctx, (missAnswer qe.2).1, (missAnswer qe.2).2)) := by
  intro calls
  induction calls with
  | nil =>
    intro s _ _ _ _
    simp [runCalls]
  | cons qe rest ih =>
    intro s hnd hfresh hreal hlen
    rw [List.map_cons, List.nodup_cons] at hnd
    obtain ⟨hknotin, hnd'⟩ := hnd
    have hfresh0 : getCacheKey qe.1 ctx ∉ cacheKeys s.cache :=
      hfresh qe (List.mem_cons_self _ _)
    have hreal0 : (missAnswer qe.2).2 ≠ "fallback" :=
      hreal qe (List.mem_cons_self _ _)
    have hlen0 : s.cache.length ≤ 50 := by
      simp only [List.length_cons] at hlen
      omega
    have hstep := @get_response_cache_append s qe.1 ctx qe.2
      hfresh0 hreal0 hlen0
    have hfresh' : ∀ qe' ∈ rest, getCacheKey qe'.1 ctx ∉
        cacheKeys (get_response s qe.1 ctx qe.2).state.cache := by
      intro qe' hq'
      rw [hstep, cacheKeys_append]
      simp only [List.mem_append, List.mem_singleton]
      rintro (hin | heq)
      · exact hfresh qe' (List.mem_cons_of_mem _ hq') hin
      · refine hknotin ?_
        rw [← heq]
        exact List.mem_map_of_mem (fun qe => getCacheKey qe.1 ctx) hq'
    have hreal' : ∀ qe' ∈ rest, (missAnswer qe'.2).2 ≠ "fallback" :=
      fun qe' hq' => hreal qe' (List.mem_cons_of_mem _ hq')
    have hlen' : (get_response s qe.1 ctx qe.2).state.cache.length +
        rest.length ≤ 51 := by
      rw [hstep]
      simp only [List.length_append, List.length_singleton,
        List.length_cons, List.length_nil] at *
      omega
    have hrun : runCalls s ctx (qe :: rest) =
        runCalls (get_response s qe.1 ctx qe.2).state ctx rest := rfl
    rw [hrun, ih _ hnd' hfresh' hreal' hlen', hstep]
    simp

set_option maxHeartbeats 1600000 in
/-- Counterexample to C1 as stated: 51 `get_response` calls with pairwise
distinct cache keys (questions `"qq0"` … `"qq50"` in context `"general"`),
each answered by the primary model, leave a cache of size 51 — not at most
41 — and the earliest-inserted key `"general:qq0"` is still present: the
eviction condition `len(cache) > 50` has not yet been reached when the
51st entry is inserted. -/
theorem cache_eviction_claim_cex :
    ((qsDistinct 51).map (fun q => getCacheKey q "general")).Nodup ∧
    (missAnswer envPrimaryOK).2 ≠ "fallback" ∧
    (runCalls initialAIState "general"
        ((qsDistinct 51).map (fun q => (q, envPrimaryOK)))).cache.length
      = 51 ∧
    getCacheKey "qq0" "general" ∈
      cacheKeys (runCalls initialAIState "general"
        ((qsDistinct 51).map (fun q => (q, envPrimaryOK)))).cache := by
  have hnd51 : keys51.Nodup := by decide
  have hkeys0 : (qsDistinct 51).map (fun q => getCacheKey q "general") =
      keys51 := by rfl
  have hk : ((qsDistinct 51).map (fun q => (q, envPrimaryOK))).map
      (fun qe => getCacheKey qe.1 "general") = keys51 := by rfl
  have hrc := runCalls_cache_append "general"
    ((qsDistinct 51).map (fun q => (q, envPrimaryOK))) initialAIState
    (by rw [hk]; exact hnd51)
    (by intro qe _; simp [initialAIState, cacheKeys])
    (by
      intro qe hqe
      obtain ⟨q, _, rfl⟩ := List.mem_map.mp hqe
      show (missAnswer envPrimaryOK).2 ≠ "fallback"
      decide)
    (by simp [initialAIState, qsDistinct])
  refine ⟨by rw [hkeys0]; exact hnd51, by decide, ?_, ?_⟩
  · rw [hrc]
    simp [initialAIState, qsDistinct]
  · rw [hrc]
    have hq0 : "qq0" ∈ qsDistinct 51 := by decide
    simp only [initialAIState, cacheKeys, List.nil_append, List.map_map,
      List.mem_map]
    exact ⟨"qq0", hq0, rfl⟩

/-- C1 (amended): starting from an empty cache, 52 `get_response` calls
with pairwise distinct cache keys, each answered by a real model, leave a
cache of exactly 42 entries with the keys of the 10 earliest calls absent.
(51 such calls leave 51 entries with nothing evicted: the eviction batch
fires only on the insert that finds more than 50 entries present, which is
the 52nd.) -/
theorem cache_eviction_after_52 (ctx : String)
    (calls : List (String × GetEnv)) (hlen : calls.length = 52)
    (hnd : (calls.map (fun qe => getCacheKey qe.1 ctx)).Nodup)
    (hreal : ∀ qe ∈ calls, (missAnswer qe.2).2 ≠ "fallback") :
    (runCalls initialAIState ctx calls).cache.length = 42 ∧
    ∀ qe ∈ calls.take 10,
      getCacheKey qe.1 ctx ∉
        cacheKeys (runCalls initialAIState ctx calls).cache := by
  obtain ⟨z, hz⟩ : ∃ z, calls.drop 51 = [z] :=
    List.length_eq_one.mp (by rw [List.length_drop, hlen])
  have hAB : calls.take 51 ++ [z] = calls := by
    rw [← hz]
    exact List.take_append_drop 51 calls
  have hlenA : (calls.take 51).length = 51 := by
    rw [List.length_take, hlen]
    omega
  have hndA : ((calls.take 51).map (fun qe => getCacheKey qe.1 ctx)).Nodup := by
    rw [List.map_take]
    exact (List.take_sublist _ _).nodup hnd
  have hmapsplit : calls.map (fun qe => getCacheKey qe.1 ctx) =
      ((calls.take 51).map (fun qe => getCacheKey qe.1 ctx)) ++
        [getCacheKey z.1 ctx] := by
    conv_lhs => rw [← hAB]
    simp
  have hndfull : (((calls.take 51).map (fun qe => getCacheKey qe.1 ctx)) ++
      [getCacheKey z.1 ctx]).Nodup := by
    rw [← hmapsplit]
    exact hnd
  have hzfresh : getCacheKey z.1 ctx ∉
      (calls.take 51).map (fun qe => getCacheKey qe.1 ctx) := by
    have hd := (List.nodup_append.mp hndfull).2.2
    intro hmem
    exact hd hmem (List.mem_singleton_self _)
  have hA := runCalls_cache_append ctx (calls.take 51) initialAIState hndA
    (by intro qe _; simp [initialAIState, cacheKeys])
    (fun qe hq => hreal qe (List.take_subset _ _ hq))
    (by simp [initialAIState, hlenA])
  have hsplit : runCalls initialAIState ctx calls =
      (get_response (runCalls initialAIState ctx (calls.take 51)) z.1 ctx
        z.2).state := by
    conv_lhs => rw [← hAB]
    unfold runCalls
    rw [List.foldl_append]
    rfl
  have hcacheA : (runCalls initialAIState ctx (calls.take 51)).cache =
      (calls.take 51).map (fun qe =>
        (getCacheKey qe.1 ctx, (missAnswer qe.2).1, (missAnswer qe.2).2)) := by
    rw [hA]
    simp [initialAIState]
  have hkeysA : cacheKeys (runCalls initialAIState ctx
      (calls.take 51)).cache =
      (calls.take 51).map (fun qe => getCacheKey qe.1 ctx) := by
    rw [hcacheA]
    simp only [cacheKeys, List.map_map]
    rfl
  have hzfresh2 : getCacheKey z.1 ctx ∉
      cacheKeys (runCalls initialAIState ctx (calls.take 51)).cache := by
    rw [hkeysA]
    exact hzfresh
  have hzreal : (missAnswer z.2).2 ≠ "fallback" :=
    hreal z (by
      rw [← hAB]
      exact List.mem_append_right _ (List.mem_singleton_self _))
  have hbig : 50 <
      (runCalls initialAIState ctx (calls.take 51)).cache.length := by
    rw [hcacheA, List.length_map, hlenA]
    omega
  have hstep := get_response_cache_evict hzfresh2 hzreal hbig
  have hfinal : (runCalls initialAIState ctx calls).cache =
      ((calls.take 51).map (fun qe =>
          (getCacheKey qe.1 ctx, (missAnswer qe.2).1,
            (missAnswer qe.2).2))).drop 10 ++
        [(getCacheKey z.1 ctx, (missAnswer z.2).1, (missAnswer z.2).2)] := by
    rw [hsplit, hstep, hcacheA]
  have hfinalKeys : cacheKeys (runCalls initialAIState ctx calls).cache =
      ((calls.take 51).map (fun qe => getCacheKey qe.1 ctx)).drop 10 ++
        [getCacheKey z.1 ctx] := by
    rw [hfinal]
    simp only [cacheKeys, List.map_append, List.map_drop, List.map_map,
      List.map_cons, List.map_nil]
    rfl
  constructor
  · rw [hfinal]
    simp only [List.length_append, List.length_drop, List.length_map,
      List.length_singleton, hlenA]
  · intro qe hq
    have hq2 : qe ∈ (calls.take 51).take 10 := by
      rw [List.take_take, show min 10 51 = 10 from rfl]
      exact hq
    have hkey10 : getCacheKey qe.1 ctx ∈
        ((calls.take 51).map (fun qe => getCacheKey qe.1 ctx)).take 10 := by
      rw [← List.map_take]
      exact List.mem_map_of_mem _ hq2
    have hkeyA : getCacheKey qe.1 ctx ∈
        (calls.take 51).map (fun qe => getCacheKey qe.1 ctx) :=
      List.take_subset _ _ hkey10
    rw [hfinalKeys]
    simp only [List.mem_append, List.mem_singleton]
    rintro (hin | heq)
    · have h1 := List.take_append_drop 10
        ((calls.take 51).map (fun qe => getCacheKey qe.1 ctx))
      have hndA2 := hndA
      rw [← h1, List.nodup_append] at hndA2
      exact hndA2.2.2 hkey10 hin
    · exact hzfresh (heq ▸ hkeyA)

set_option maxHeartbeats 1600000 in
/-- Witness for C1 (amended): 52 concrete calls, questions
`"qq0"` … `"qq51"`, each answered by the primary model. -/
theorem cache_eviction_after_52_witness :
    (runCalls initialAIState "general"
        ((qsDistinct 52).map (fun q => (q, envPrimaryOK)))).cache.length
      = 42 ∧
    ∀ qe ∈ ((qsDistinct 52).map (fun q => (q, envPrimaryOK))).take 10,
      getCacheKey qe.1 "general" ∉
        cacheKeys (runCalls initialAIState "general"
          ((qsDistinct 52).map (fun q => (q, envPrimaryOK)))).cache :=
  cache_eviction_after_52 "general"
    ((qsDistinct 52).map (fun q => (q, envPrimaryOK)))
    (by simp [qsDistinct])
    (by
      have hk : ((qsDistinct 52).map (fun q => (q, envPrimaryOK))).map
          (fun qe => getCacheKey qe.1 "general") = keys52 := by rfl
      rw [hk]
      decide)
    (by
      intro qe hqe
      obtain ⟨q, _, rfl⟩ := List.mem_map.mp hqe
      show (missAnswer envPrimaryOK).2 ≠ "fallback"
      decide)

end SaviourAI
